import Mathlib

/-!
Verification of the protected smart pointer (src/protected-smart-pointer/src/lib.rs).

The Rust code wraps a value `T` together with a registry of access keys
(`HashSet<u32>`) in one `RwLock`ed cell shared via `Arc` by an owner handle
and any number of user handles. We shallowly embed it by passing the cell
state (`ProtectedBox`) explicitly: every operation takes the current cell
state and returns its result together with the state afterwards. A handle
is its `access_key` field (`None` for the owner, `Some id` for a user); the
Rust phantom role parameter has no runtime content. The `unwrap()` inside
`has_access` is modelled by `Option`: a `none` result is the panic.
Identities (`u32`) are modelled as `ℕ`: no arithmetic is performed on
them, only equality and set membership, so no overflow wrap is involved.
-/

namespace ProtectedSmartPointer

/-- Error returned when a user no longer has access to the value.
Mirrors `AccessDeniedError` in the source. -/
inductive AccessDeniedError : Type where
  | accessDenied : AccessDeniedError
deriving DecidableEq, Repr

/-- Inner type of the protected cell: the value plus the access-key
registry. Mirrors `ProtectedBox<T>` (`value`, `access_keys: HashSet<u32>`). -/
structure ProtectedBox (T : Type) where
  value : T
  access_keys : Finset ℕ
deriving DecidableEq

/-- A handle to the protected cell. The `inner: Arc<RwLock<..>>` field is
modelled by explicit state passing; what remains per handle is its
`access_key: Option<u32>` (`none` for the owner, `some id` for a user). -/
structure Protected (T : Type) where
  access_key : Option ℕ
deriving DecidableEq, Repr

namespace Protected

variable {T : Type}

/-- Mirrors `Protected::<T, Owner>::new`: returns the owner handle
(access key `none`) and a fresh cell with an empty registry. -/
def new (value : T) : Protected T × ProtectedBox T :=
  (⟨none⟩, ⟨value, ∅⟩)

/-- Mirrors `Protected::<T, Owner>::create_user`: inserts `id` into the
registry; on success (the id was not present) returns a new user handle
whose access key is `some id`, otherwise returns `none` and leaves the
cell unchanged. -/
def create_user (s : ProtectedBox T) (id : ℕ) :
    Option (Protected T) × ProtectedBox T :=
  if id ∈ s.access_keys then
    (none, s)
  else
    (some ⟨some id⟩, ⟨s.value, insert id s.access_keys⟩)

/-- Mirrors `Protected::<T, Owner>::remove_user`: removes `id` from the
registry (a no-op when absent). -/
def remove_user (s : ProtectedBox T) (id : ℕ) : ProtectedBox T :=
  ⟨s.value, s.access_keys.erase id⟩

/-- Mirrors `Protected::<T, User>::has_access`:
`access_keys.contains(&self.access_key.unwrap())`. The `unwrap` panic on a
`none` access key is modelled by the `Option`: `none` means the call
panics, `some b` means it returns `b`. -/
def has_access (p : Protected T) (s : ProtectedBox T) : Option Bool :=
  p.access_key.map (fun k => decide (k ∈ s.access_keys))

/-- Mirrors `Protected::<T, Owner>::read` followed by dereferencing the
read guard: the owner reads unconditionally. -/
def owner_read (s : ProtectedBox T) : T :=
  s.value

/-- Mirrors `Protected::<T, Owner>::write` followed by assigning `v`
through the write guard's mutable dereference and releasing the guard:
the owner writes unconditionally and only the value changes. -/
def owner_write (s : ProtectedBox T) (v : T) : ProtectedBox T :=
  ⟨v, s.access_keys⟩

/-- Mirrors `Protected::<T, User>::read` followed by dereferencing the
guard on success: if `has_access` holds the value is returned, otherwise
`AccessDeniedError`. The second component is the cell state after the
call, which `read` never mutates. A `none` result is the `unwrap` panic
inside `has_access`. -/
def read (p : Protected T) (s : ProtectedBox T) :
    Option (Except AccessDeniedError T × ProtectedBox T) :=
  (p.has_access s).map (fun b =>
    if b then (Except.ok s.value, s) else (Except.error .accessDenied, s))

/-- Mirrors `Protected::<T, User>::write` followed by assigning `v`
through the write guard's mutable dereference and releasing the guard:
on access the value becomes `v`, on denial the call fails and the cell is
unchanged. The second component is the cell state after the call. -/
def write (p : Protected T) (s : ProtectedBox T) (v : T) :
    Option (Except AccessDeniedError Unit × ProtectedBox T) :=
  (p.has_access s).map (fun b =>
    if b then (Except.ok (), ⟨v, s.access_keys⟩)
    else (Except.error .accessDenied, s))

/-- Mirrors `Drop for Protected<T, A>`: a user handle (access key
`some k`) removes its own key from the registry; the owner (access key
`none`) clears the whole registry. -/
def drop (p : Protected T) (s : ProtectedBox T) : ProtectedBox T :=
  match p.access_key with
  | some access_key => ⟨s.value, s.access_keys.erase access_key⟩
  | none => ⟨s.value, ∅⟩

end Protected

/-- An observable operation on the shared cell, used to reason about
arbitrary interleavings of API calls after a point in time. Each
constructor corresponds to one state-mutating API event of the source. -/
inductive Op (T : Type) where
  | create_user : ℕ → Op T
  | remove_user : ℕ → Op T
  | drop_user : ℕ → Op T
  | drop_owner : Op T
  | owner_write : T → Op T
  | user_write : ℕ → T → Op T
deriving DecidableEq

/-- State transition of one operation, defined from the corresponding
source operation. A user write takes effect only when the writer's id is
registered, as in `Protected::<T, User>::write`. -/
def applyOp {T : Type} (s : ProtectedBox T) : Op T → ProtectedBox T
  | .create_user id => (Protected.create_user s id).2
  | .remove_user id => Protected.remove_user s id
  | .drop_user id => Protected.drop ⟨some id⟩ s
  | .drop_owner => Protected.drop (⟨none⟩ : Protected T) s
  | .owner_write v => Protected.owner_write s v
  | .user_write id v =>
    match Protected.write (⟨some id⟩ : Protected T) s v with
    | some (_, s') => s'
    | none => s

/-- Folds a list of operations over the cell state. -/
def applyOps {T : Type} (s : ProtectedBox T) : List (Op T) → ProtectedBox T
  | [] => s
  | op :: ops => applyOps (applyOp s op) ops

/-- Helper: one operation other than re-registration of `id` keeps `id`
out of the registry. -/
lemma applyOp_not_mem {T : Type} (s : ProtectedBox T) (id : ℕ) (op : Op T)
    (hid : id ∉ s.access_keys) (hop : op ≠ Op.create_user id) :
    id ∉ (applyOp s op).access_keys := by
  cases op with
  | create_user j =>
    have hj : id ≠ j := by rintro rfl; exact hop rfl
    by_cases hm : j ∈ s.access_keys <;>
      simp [applyOp, Protected.create_user, hm, hid, hj]
  | remove_user j =>
    simp [applyOp, Protected.remove_user, Finset.mem_erase, hid]
  | drop_user j =>
    simp [applyOp, Protected.drop, Finset.mem_erase, hid]
  | drop_owner =>
    simp [applyOp, Protected.drop]
  | owner_write v =>
    simpa [applyOp, Protected.owner_write] using hid
  | user_write j v =>
    by_cases hm : j ∈ s.access_keys <;>
      simp [applyOp, Protected.write, Protected.has_access, hm, hid]

/-- Helper: a sequence of operations containing no re-registration of `id`
keeps `id` out of the registry. -/
lemma applyOps_not_mem {T : Type} (s : ProtectedBox T) (id : ℕ)
    (ops : List (Op T)) (hid : id ∉ s.access_keys)
    (hops : ∀ op ∈ ops, op ≠ Op.create_user id) :
    id ∉ (applyOps s ops).access_keys := by
  induction ops generalizing s with
  | nil => exact hid
  | cons op rest ih =>
    exact ih (applyOp s op)
      (applyOp_not_mem s id op hid (hops op (List.mem_cons_self op rest)))
      (fun o ho => hops o (List.mem_cons_of_mem op ho))

/-- C1 (counterexample): the claim that a revoked handle instance stays
denied forever is false. Concretely: the owner creates user 0, revokes it
(`remove_user 0`, after which a read is denied), then re-registers the
same identity value via another `create_user 0`. The old handle's
subsequent read succeeds with the value 42 instead of failing with
`AccessDeniedError`: `has_access` keys access purely on the identity
value, so the old instance regains access. -/
theorem C1_counterexample :
    (Protected.create_user (Protected.new (42 : ℕ)).2 0).1
        = some ⟨some 0⟩ ∧
    Protected.read (⟨some 0⟩ : Protected ℕ)
        (Protected.remove_user
          (Protected.create_user (Protected.new (42 : ℕ)).2 0).2 0)
      = some (Except.error .accessDenied,
          Protected.remove_user
            (Protected.create_user (Protected.new (42 : ℕ)).2 0).2 0) ∧
    Protected.read (⟨some 0⟩ : Protected ℕ)
        (Protected.create_user
          (Protected.remove_user
            (Protected.create_user (Protected.new (42 : ℕ)).2 0).2 0) 0).2
      = some (Except.ok 42,
          (Protected.create_user
            (Protected.remove_user
              (Protected.create_user (Protected.new (42 : ℕ)).2 0).2 0) 0).2) :=
  ⟨rfl, rfl, rfl⟩

/-- C1 (amended): once a user handle's identity is out of the registry,
every subsequent read and write on that handle fails with
`AccessDeniedError`, for as long as no later operation re-registers the
same identity value via `create_user`; if the identity is re-registered,
the old handle instance regains access. -/
theorem C1_revoked_handle_denied_until_reregistration {T : Type}
    (p : Protected T) (id : ℕ) (s : ProtectedBox T) (v : T)
    (ops : List (Op T)) (h : p.access_key = some id)
    (hid : id ∉ s.access_keys)
    (hops : ∀ op ∈ ops, op ≠ Op.create_user id) :
    p.read (applyOps s ops)
      = some (Except.error .accessDenied, applyOps s ops) ∧
    p.write (applyOps s ops) v
      = some (Except.error .accessDenied, applyOps s ops) := by
  have hnot := applyOps_not_mem s id ops hid hops
  simp [Protected.read, Protected.write, Protected.has_access, h, hnot]

/-- C1 (witness): the amended theorem applied to a concrete revoked
handle and a concrete operation sequence without re-registration. -/
theorem C1_revoked_handle_denied_until_reregistration_witness :
    Protected.read (⟨some 0⟩ : Protected ℕ)
        (applyOps (⟨42, {1}⟩ : ProtectedBox ℕ)
          [Op.remove_user 1, Op.drop_owner])
      = some (Except.error .accessDenied,
          applyOps (⟨42, {1}⟩ : ProtectedBox ℕ)
            [Op.remove_user 1, Op.drop_owner]) ∧
    Protected.write (⟨some 0⟩ : Protected ℕ)
        (applyOps (⟨42, {1}⟩ : ProtectedBox ℕ)
          [Op.remove_user 1, Op.drop_owner]) 7
      = some (Except.error .accessDenied,
          applyOps (⟨42, {1}⟩ : ProtectedBox ℕ)
            [Op.remove_user 1, Op.drop_owner]) :=
  C1_revoked_handle_denied_until_reregistration ⟨some 0⟩ 0 ⟨42, {1}⟩ 7
    [Op.remove_user 1, Op.drop_owner] rfl (by decide) (by decide)

/-- C2: dropping a user handle with identity `id` sets the registry to the
old registry with exactly `id` erased: the value is unchanged and every
identity other than `id` is registered afterwards exactly when it was
before, so no other live handle (nor the owner, whose access is
unconditional) is affected. -/
theorem C2_user_drop_removes_only_own_id {T : Type} (p : Protected T)
    (id : ℕ) (s : ProtectedBox T) (h : p.access_key = some id) :
    (p.drop s).value = s.value ∧
    (p.drop s).access_keys = s.access_keys.erase id ∧
    ∀ j, j ≠ id → (j ∈ (p.drop s).access_keys ↔ j ∈ s.access_keys) := by
  obtain ⟨k⟩ := p
  cases h
  refine ⟨rfl, rfl, ?_⟩
  intro j hj
  simp [Protected.drop, Finset.mem_erase, hj]

/-- C2 (witness): dropping user 0 on a registry holding 0 and 1 keeps the
value, erases exactly 0, and leaves 1 registered. -/
theorem C2_user_drop_removes_only_own_id_witness :
    ((⟨some 0⟩ : Protected ℕ).drop ⟨42, {0, 1}⟩).value = 42 ∧
    ((⟨some 0⟩ : Protected ℕ).drop ⟨42, {0, 1}⟩).access_keys
      = ({0, 1} : Finset ℕ).erase 0 ∧
    (1 ∈ ((⟨some 0⟩ : Protected ℕ).drop ⟨42, {0, 1}⟩).access_keys
      ↔ 1 ∈ ({0, 1} : Finset ℕ)) :=
  have h := C2_user_drop_removes_only_own_id (⟨some 0⟩ : Protected ℕ) 0
    ⟨42, {0, 1}⟩ rfl
  ⟨h.1, h.2.1, h.2.2 1 (by decide)⟩

/-- C3: a user handle with identity `id` reads (or writes) successfully
exactly when `id` is in the registry at the time of the check, and fails
with `AccessDeniedError` exactly when it is not; on the denied outcome
the cell (value and registry) is unchanged. -/
theorem C3_user_access_iff_registered {T : Type} (p : Protected T)
    (id : ℕ) (s : ProtectedBox T) (v : T) (h : p.access_key = some id) :
    (id ∈ s.access_keys →
      p.read s = some (Except.ok s.value, s) ∧
      p.write s v = some (Except.ok (), ⟨v, s.access_keys⟩)) ∧
    (id ∉ s.access_keys →
      p.read s = some (Except.error .accessDenied, s) ∧
      p.write s v = some (Except.error .accessDenied, s)) := by
  constructor <;> intro hm <;>
    simp [Protected.read, Protected.write, Protected.has_access, h, hm]

/-- C3 (witness): user 0 reads and writes while registered, and is denied
with the cell unchanged once the registry is empty. -/
theorem C3_user_access_iff_registered_witness :
    (Protected.read (⟨some 0⟩ : Protected ℕ) ⟨42, {0}⟩
        = some (Except.ok 42, ⟨42, {0}⟩) ∧
      Protected.write (⟨some 0⟩ : Protected ℕ) ⟨42, {0}⟩ 7
        = some (Except.ok (), ⟨7, {0}⟩)) ∧
    (Protected.read (⟨some 0⟩ : Protected ℕ) ⟨42, ∅⟩
        = some (Except.error .accessDenied, ⟨42, ∅⟩) ∧
      Protected.write (⟨some 0⟩ : Protected ℕ) ⟨42, ∅⟩ 7
        = some (Except.error .accessDenied, ⟨42, ∅⟩)) :=
  ⟨(C3_user_access_iff_registered ⟨some 0⟩ 0 ⟨42, {0}⟩ 7 rfl).1 (by decide),
    (C3_user_access_iff_registered ⟨some 0⟩ 0 ⟨42, ∅⟩ 7 rfl).2 (by decide)⟩

/-- C4: `create_user id` succeeds exactly when `id` is not yet registered,
returning a handle whose access key is `some id` with the registry grown
by exactly `id` and the value unchanged; when `id` is already registered
it returns no handle and leaves the cell entirely unchanged. -/
theorem C4_create_user_spec {T : Type} (s : ProtectedBox T) (id : ℕ) :
    ((Protected.create_user s id).1.isSome = true ↔ id ∉ s.access_keys) ∧
    (id ∉ s.access_keys →
      Protected.create_user s id
        = (some ⟨some id⟩, ⟨s.value, insert id s.access_keys⟩)) ∧
    (id ∈ s.access_keys → Protected.create_user s id = (none, s)) := by
  by_cases hm : id ∈ s.access_keys <;>
    simp [Protected.create_user, hm]

/-- C4 (witness): creating user 0 on an empty registry yields a handle and
the registry gains 0; creating user 0 again returns no handle and changes
nothing. -/
theorem C4_create_user_spec_witness :
    Protected.create_user (⟨42, ∅⟩ : ProtectedBox ℕ) 0
      = (some ⟨some 0⟩, ⟨42, {0}⟩) ∧
    Protected.create_user (⟨42, {0}⟩ : ProtectedBox ℕ) 0
      = (none, ⟨42, {0}⟩) :=
  ⟨(C4_create_user_spec (⟨42, ∅⟩ : ProtectedBox ℕ) 0).2.1 (by decide),
    (C4_create_user_spec (⟨42, {0}⟩ : ProtectedBox ℕ) 0).2.2 (by decide)⟩

/-- C5: dropping the owner handle clears the whole registry, so afterwards
every user handle's read and write fail with `AccessDeniedError`, whether
or not its identity was ever explicitly removed. -/
theorem C5_owner_drop_revokes_all {T : Type} (powner : Protected T)
    (s : ProtectedBox T) (h : powner.access_key = none) :
    (powner.drop s).access_keys = ∅ ∧
    ∀ (q : Protected T) (id : ℕ) (v : T), q.access_key = some id →
      q.read (powner.drop s)
          = some (Except.error .accessDenied, powner.drop s) ∧
      q.write (powner.drop s) v
          = some (Except.error .accessDenied, powner.drop s) := by
  obtain ⟨k⟩ := powner
  cases h
  refine ⟨rfl, ?_⟩
  intro q id v hq
  simp [Protected.drop, Protected.read, Protected.write,
    Protected.has_access, hq]

/-- C5 (witness): after dropping the owner of a cell whose registry holds
0 and 1, the registry is empty and user 1 is denied on read and write
even though `remove_user 1` was never called. -/
theorem C5_owner_drop_revokes_all_witness :
    ((⟨none⟩ : Protected ℕ).drop ⟨42, {0, 1}⟩).access_keys = ∅ ∧
    Protected.read (⟨some 1⟩ : Protected ℕ)
        ((⟨none⟩ : Protected ℕ).drop ⟨42, {0, 1}⟩)
      = some (Except.error .accessDenied,
          (⟨none⟩ : Protected ℕ).drop ⟨42, {0, 1}⟩) ∧
    Protected.write (⟨some 1⟩ : Protected ℕ)
        ((⟨none⟩ : Protected ℕ).drop ⟨42, {0, 1}⟩) 7
      = some (Except.error .accessDenied,
          (⟨none⟩ : Protected ℕ).drop ⟨42, {0, 1}⟩) :=
  have h := C5_owner_drop_revokes_all (⟨none⟩ : Protected ℕ) ⟨42, {0, 1}⟩ rfl
  ⟨h.1, (h.2 ⟨some 1⟩ 1 7 rfl).1, (h.2 ⟨some 1⟩ 1 7 rfl).2⟩

/-- C6: creating an owner with value `v` yields a cell whose immediate
owner read returns `v` and whose registry starts empty. -/
theorem C6_new_then_read {T : Type} (v : T) :
    Protected.owner_read (Protected.new v).2 = v ∧
    (Protected.new v).2.access_keys = ∅ :=
  ⟨rfl, rfl⟩

/-- C7: a write of `v2` through a registered user handle's write guard
produces exactly the cell state the owner's write would produce
(one shared cell, no per-handle copy); on that state the owner's read and
the read of every handle whose identity is registered — the writer itself
or any other user — return `v2`. -/
theorem C7_write_visible_to_all_handles {T : Type} (p : Protected T)
    (id : ℕ) (s : ProtectedBox T) (v2 : T) (h : p.access_key = some id)
    (hm : id ∈ s.access_keys) :
    p.write s v2 = some (Except.ok (), Protected.owner_write s v2) ∧
    Protected.owner_read (Protected.owner_write s v2) = v2 ∧
    ∀ (q : Protected T) (j : ℕ), q.access_key = some j →
      j ∈ s.access_keys →
      q.read (Protected.owner_write s v2)
        = some (Except.ok v2, Protected.owner_write s v2) := by
  refine ⟨?_, rfl, ?_⟩
  · simp [Protected.write, Protected.has_access, Protected.owner_write,
      h, hm]
  · intro q j hq hj
    simp [Protected.read, Protected.has_access, Protected.owner_write,
      hq, hj]

/-- C7 (witness): user 0 writes 44 to a cell registered for 0 and 1; the
owner reads 44, user 0 reads 44, and the distinct user 1 reads 44 on the
same cell. -/
theorem C7_write_visible_to_all_handles_witness :
    Protected.write (⟨some 0⟩ : Protected ℕ) ⟨42, {0, 1}⟩ 44
      = some (Except.ok (),
          Protected.owner_write (⟨42, {0, 1}⟩ : ProtectedBox ℕ) 44) ∧
    Protected.owner_read
        (Protected.owner_write (⟨42, {0, 1}⟩ : ProtectedBox ℕ) 44) = 44 ∧
    Protected.read (⟨some 0⟩ : Protected ℕ)
        (Protected.owner_write (⟨42, {0, 1}⟩ : ProtectedBox ℕ) 44)
      = some (Except.ok 44,
          Protected.owner_write (⟨42, {0, 1}⟩ : ProtectedBox ℕ) 44) ∧
    Protected.read (⟨some 1⟩ : Protected ℕ)
        (Protected.owner_write (⟨42, {0, 1}⟩ : ProtectedBox ℕ) 44)
      = some (Except.ok 44,
          Protected.owner_write (⟨42, {0, 1}⟩ : ProtectedBox ℕ) 44) :=
  have h := C7_write_visible_to_all_handles (⟨some 0⟩ : Protected ℕ) 0
    ⟨42, {0, 1}⟩ 44 rfl (by decide)
  ⟨h.1, h.2.1, h.2.2 ⟨some 0⟩ 0 rfl (by decide),
    h.2.2 ⟨some 1⟩ 1 rfl (by decide)⟩

/-- C8: after the user handle holding `id` is dropped, or after the owner
calls `remove_user id`, a `create_user id` with the same identity
succeeds again and returns a fresh handle keyed by `id`. -/
theorem C8_identity_reuse {T : Type} (s : ProtectedBox T) (id : ℕ) :
    (Protected.create_user ((⟨some id⟩ : Protected T).drop s) id).1
      = some ⟨some id⟩ ∧
    (Protected.create_user (Protected.remove_user s id) id).1
      = some ⟨some id⟩ := by
  constructor <;>
    simp [Protected.create_user, Protected.remove_user, Protected.drop,
      Finset.mem_erase]

/-- C9: the owner handle returned by `new` carries no access key, while
every handle produced by `create_user` carries `some id`; consequently
`has_access` on a created handle always returns a value (its internal
`unwrap` never panics), and the role of a handle is read off from whether
its access key is present. -/
theorem C9_access_key_discipline {T : Type} (v : T)
    (s s2 : ProtectedBox T) (id : ℕ) :
    (Protected.new v).1.access_key = none ∧
    ∀ (p : Protected T) (s1 : ProtectedBox T),
      Protected.create_user s id = (some p, s1) →
      p.access_key = some id ∧ (p.has_access s2).isSome = true := by
  refine ⟨rfl, ?_⟩
  intro p s1 h
  by_cases hm : id ∈ s.access_keys
  · simp [Protected.create_user, hm] at h
  · simp [Protected.create_user, hm] at h
    obtain ⟨hp, -⟩ := h
    subst hp
    simp [Protected.has_access]

/-- C9 (witness): the concrete owner of 42 has no access key, and the
handle created for id 0 on the fresh cell carries key 0 and evaluates
`has_access` without panicking on an arbitrary later state. -/
theorem C9_access_key_discipline_witness :
    (Protected.new (42 : ℕ)).1.access_key = none ∧
    ((⟨some 0⟩ : Protected ℕ).access_key = some 0 ∧
      ((⟨some 0⟩ : Protected ℕ).has_access ⟨43, {5}⟩).isSome = true) :=
  have h := C9_access_key_discipline (42 : ℕ) ⟨42, ∅⟩ ⟨43, {5}⟩ 0
  ⟨h.1, h.2 ⟨some 0⟩ ⟨42, {0}⟩ (by decide)⟩

/-- C10: the registry-mutating operations — `create_user`, `remove_user`,
and dropping any handle — never change the protected value. -/
theorem C10_registry_ops_preserve_value {T : Type} (s : ProtectedBox T)
    (id : ℕ) (p : Protected T) :
    (Protected.create_user s id).2.value = s.value ∧
    (Protected.remove_user s id).value = s.value ∧
    (p.drop s).value = s.value := by
  refine ⟨?_, rfl, ?_⟩
  · by_cases hm : id ∈ s.access_keys <;>
      simp [Protected.create_user, hm]
  · obtain ⟨k⟩ := p
    cases k <;> rfl

end ProtectedSmartPointer
